import Mathlib

/-!
Verification development for the "Progress Director" dashboard (src/app.py).

The pipeline under study: four source adapters with try/except fallback
behaviour, a TTL cache in front of each adapter, a geometry/metric join on
zone identifiers, a five-bucket percentage classifier, a spatial clusterer
for restoration sites, and the sidebar summary metrics.

Percentages and timestamps are embedded as rationals; Python dictionaries
with optional keys become structures with `Option` fields; Python dicts
keyed by zone identifier become association lists; network calls, which
cannot be embedded, become explicit `Except Unit` parameters so that the
exception-propagation structure of the script is visible; `try/except`
blocks become `match` on those `Except` values.
-/

namespace ProgressDirector

/-- One entry of the `zones` dictionary produced by `get_electricity_data`
(src/app.py lines 29-34): a per-zone record with optional fields, as read by
`.get` calls at lines 90, 102 and 145.  `none` models an absent key (or a key
whose value is Python `None`, indistinguishable through `.get`). -/
structure ZoneData where
  lowCarbonPercentage : Option ℚ
  renewablePercentage : Option ℚ
  countryName : Option String
  deriving DecidableEq, Repr

/-- The zones dictionary: association list keyed by zone identifier. -/
abbrev Zones := List (String × ZoneData)

/-- Dictionary lookup (`zone_id in zones` / `zones[zone_id]`). -/
def zonesLookup (zs : Zones) (zid : String) : Option ZoneData :=
  (zs.find? (fun p => p.1 = zid)).map (fun p => p.2)

/-- `dict.update`: fields present in the update `d` overwrite those of `z`
(src/app.py line 33, `zones[zone_id].update(data)`). -/
def updateZone (z d : ZoneData) : ZoneData :=
  { lowCarbonPercentage := (d.lowCarbonPercentage.map some).getD z.lowCarbonPercentage
    renewablePercentage := (d.renewablePercentage.map some).getD z.renewablePercentage
    countryName := (d.countryName.map some).getD z.countryName }

/-- Python truthiness of the token value at line 25 (`if not token`):
absent or empty string is falsy. -/
def tokenFalsy : Option String → Bool
  | none => true
  | some s => s = ""

/-- src/app.py lines 22-36, `get_electricity_data`: if the token is falsy the
adapter returns the empty dictionary; otherwise the two network calls (which
may raise, modelled by the `Except` parameter delivering the parsed `zones`
and `intensity` dictionaries) are merged per line 31-33; any exception is
caught at line 35 and yields the empty dictionary. -/
def get_electricity_data (token : Option String)
    (fetch : Except Unit (Zones × Zones)) : Zones :=
  if tokenFalsy token then []
  else
    match fetch with
    | .error _ => []
    | .ok (zs, intensity) =>
      zs.map (fun p =>
        match zonesLookup intensity p.1 with
        | some d => (p.1, updateZone p.2 d)
        | none => p)

/-- The five display buckets of the specification classifier
(colors darkgreen, green, lightgreen, yellow, orange in the source). -/
inductive Bucket where
  | very_high
  | high
  | medium
  | low
  | very_low
  deriving DecidableEq, Repr

/-- src/app.py line 93: the strict-greater-than threshold ladder that picks
the fill color for a percentage. -/
def color (pct : ℚ) : String :=
  if pct > 80 then "darkgreen"
  else if pct > 60 then "green"
  else if pct > 40 then "lightgreen"
  else if pct > 20 then "yellow"
  else "orange"

/-- The same ladder producing the bucket names of the specification
(very_high = darkgreen, high = green, medium = lightgreen, low = yellow,
very_low = orange). -/
def classify (pct : ℚ) : Bucket :=
  if pct > 80 then .very_high
  else if pct > 60 then .high
  else if pct > 40 then .medium
  else if pct > 20 then .low
  else .very_low

/-- The color literal the source uses for each bucket. -/
def bucketColor : Bucket → String
  | .very_high => "darkgreen"
  | .high => "green"
  | .medium => "lightgreen"
  | .low => "yellow"
  | .very_low => "orange"

/-- One feature of the restoration-sites response (src/app.py lines 44-46,
110-119): the fields the marker loop reads.  `coordinates` is the raw
coordinate list of the GeoJSON geometry. -/
structure RestorSite where
  name : Option String
  coordinates : List ℚ
  treesPlanted : Option ℚ
  hectaresRestored : Option ℚ
  carbonCaptured : Option ℚ
  deriving DecidableEq, Repr

/-- src/app.py lines 41-48, `get_restor_sites`: the network call and JSON
field access may raise (modelled by the `Except` parameter delivering the
parsed feature list); any exception is caught and yields the empty frame. -/
def get_restor_sites (fetch : Except Unit (List RestorSite)) : List RestorSite :=
  match fetch with
  | .ok sites => sites
  | .error _ => []

/-- Python regex class `\d` restricted to the ASCII digits that the scraped
counters consist of. -/
def isDigitChar (c : Char) : Bool := c.isDigit

/-- Python regex class `\s`: space, tab, newline, carriage return, vertical
tab, form feed. -/
def isSpaceChar (c : Char) : Bool :=
  c = ' ' || c = '\t' || c = '\n' || c = '\r' || c = Char.ofNat 11 || c = Char.ofNat 12

/-- Numeric value of a digit string (`int(match.group(1))`). -/
def digitsToNat (ds : List Char) : Nat :=
  ds.foldl (fun n c => 10 * n + (c.toNat - 48)) 0

/-- Strip a literal prefix: `some rest` when `s` starts with `lit`. -/
def stripLit : List Char → List Char → Option (List Char)
  | [], s => some s
  | _ :: _, [] => none
  | l :: ls, c :: cs => if c = l then stripLit ls cs else none

/-- Match the pattern `LIT\s*(\d+)` at the head of `s` (the ocean-cleanup
pattern shape, src/app.py line 57): the literal, then greedily skipped
whitespace, then at least one digit; returns the captured number. -/
def matchLitSpaceDigitsAt (lit : List Char) (s : List Char) : Option Nat :=
  match stripLit lit s with
  | none => none
  | some rest =>
    let ds := (rest.dropWhile isSpaceChar).takeWhile isDigitChar
    if ds.isEmpty then none else some (digitsToNat ds)

/-- Match the pattern `LIT(\d+)"` at the head of `s` (the tree-count pattern
shape, src/app.py line 70): the literal, at least one digit, then a closing
double quote; `\d+` is greedy and a digit is never a quote, so the quote must
follow the maximal digit run. -/
def matchLitDigitsQuoteAt (lit : List Char) (s : List Char) : Option Nat :=
  match stripLit lit s with
  | none => none
  | some rest =>
    let ds := rest.takeWhile isDigitChar
    if ds.isEmpty then none
    else
      match rest.drop ds.length with
      | '"' :: _ => some (digitsToNat ds)
      | _ => none

/-- `re.search`: try the pattern at each position left to right, first hit
wins. -/
def reSearch (p : List Char → Option Nat) : List Char → Option Nat
  | [] => p []
  | c :: rest =>
    match p (c :: rest) with
    | some n => some n
    | none => reSearch p rest

/-- The literal part of the ocean-cleanup pattern
`"total_intercepted":\s*(\d+)` (src/app.py line 57). -/
def oceanLit : List Char := "\"total_intercepted\":".toList

/-- src/app.py lines 53-61, `get_ocean_cleanup`: scrape the first
`"total_intercepted": <digits>` occurrence out of the page; a failed match
yields the fallback 750000000, and any exception in the try block (the
network call, modelled by the `Except` parameter) is caught and also yields
the fallback.  The result is a total value: the adapter never raises. -/
def get_ocean_cleanup (fetch : Except Unit String) : Nat :=
  match fetch with
  | .error _ => 750000000
  | .ok html =>
    match reSearch (matchLitSpaceDigitsAt oceanLit) html.toList with
    | some n => n
    | none => 750000000

/-- The literal part of the first tree-count pattern
`data-trees-count="(\d+)"` (src/app.py line 70). -/
def ecosiaLit1 : List Char := "data-trees-count=\"".toList

/-- The literal part of the second tree-count pattern `data-trees="(\d+)"`
(src/app.py line 70). -/
def ecosiaLit2 : List Char := "data-trees=\"".toList

/-- src/app.py lines 66-73, `get_ecosia_trees`: try the first pattern, then
(Python `or`) the second; both failing yields the fallback 215000000, and any
exception in the try block is caught and also yields the fallback. -/
def get_ecosia_trees (fetch : Except Unit String) : Nat :=
  match fetch with
  | .error _ => 215000000
  | .ok html =>
    match reSearch (matchLitDigitsQuoteAt ecosiaLit1) html.toList with
    | some n => n
    | none =>
      match reSearch (matchLitDigitsQuoteAt ecosiaLit2) html.toList with
      | some n => n
      | none => 215000000

/-- One feature of the world geojson (src/app.py lines 86-87): the
`zoneName` property the loop reads, and the rest of the feature kept opaque
(`body`), so that a styled output can be traced back to its input feature
unchanged. -/
structure GeoFeature where
  zoneName : Option String
  body : String
  deriving DecidableEq, Repr

/-- A feature of the decarbonization layer: the input feature together with
the fill color the threshold ladder chose for it (src/app.py lines 93-103). -/
structure StyledFeature where
  feature : GeoFeature
  fillColor : String
  deriving DecidableEq, Repr

/-- Python `a or b` on two optional percentages (src/app.py line 90):
`None` and `0` are falsy, so the left value is kept only when present and
nonzero. -/
def pyOr (a b : Option ℚ) : Option ℚ :=
  match a with
  | none => b
  | some v => if v = 0 then b else some v

/-- The percentage the styling loop ends up using for a feature, or `none`
when the feature is skipped by one of the `continue` guards
(src/app.py lines 87-92):  absent or empty `zoneName`, identifier not in the
zones dictionary, or `lowCarbonPercentage or renewablePercentage` being
`None`. -/
def matchedPct (zs : Zones) (f : GeoFeature) : Option ℚ :=
  match f.zoneName with
  | none => none
  | some zid =>
    if zid = "" then none
    else
      match zonesLookup zs zid with
      | none => none
      | some z => pyOr z.lowCarbonPercentage z.renewablePercentage

/-- src/app.py lines 86-103: the feature loop of the decarbonization layer.
Each geojson feature is either skipped (`continue`) or added exactly once,
styled with the color of its selected percentage. -/
def electricity_features (zs : Zones) (geo : List GeoFeature) : List StyledFeature :=
  geo.filterMap (fun f =>
    match matchedPct zs f with
    | none => none
    | some pct => some { feature := f, fillColor := color pct })

/-- src/app.py line 145: the sidebar summary statistic.  The numerator sums
`lowCarbonPercentage` over the zones where it is not `None` (the `, 0`
default of the `.get` is never reached past that filter); the denominator is
`len(zones)`, the number of all zones; the trailing conditional yields 0 for
an empty dictionary. -/
def avg_low_carbon (zs : Zones) : ℚ :=
  if zs.isEmpty then 0
  else
    ((zs.filter (fun p => p.2.lowCarbonPercentage ≠ none)).map
      (fun p => p.2.lowCarbonPercentage.getD 0)).sum / zs.length

/-- Modelled from the spec: the summary statistic the specification
describes (the code under src computes `avg_low_carbon` instead) — the
arithmetic mean of the `lowCarbonPercentage` values over exactly the zones
that report one, absent values excluded from numerator and denominator. -/
def specMeanLowCarbon (zs : Zones) : ℚ :=
  let reporting := zs.filter (fun p => p.2.lowCarbonPercentage ≠ none)
  if reporting.isEmpty then 0
  else (reporting.map (fun p => p.2.lowCarbonPercentage.getD 0)).sum / reporting.length

/-- One marker of the restoration layer (src/app.py lines 110-119): the
location is the coordinate list reversed (`[::-1]`), and the popup
attributes are carried unchanged. -/
structure Marker where
  location : List ℚ
  name : Option String
  treesPlanted : Option ℚ
  hectaresRestored : Option ℚ
  carbonCaptured : Option ℚ
  deriving DecidableEq, Repr

/-- src/app.py lines 110-119: the marker built from one restoration site. -/
def markerOfSite (s : RestorSite) : Marker :=
  { location := s.coordinates.reverse
    name := s.name
    treesPlanted := s.treesPlanted
    hectaresRestored := s.hectaresRestored
    carbonCaptured := s.carbonCaptured }

/-- src/app.py lines 107-120: the restoration layer is built only when the
frame is non-empty (`if not restor_df.empty`); `none` means the layer is
absent from the map. -/
def restor_layer (sites : List RestorSite) : Option (List Marker) :=
  if sites.isEmpty then none else some (sites.map markerOfSite)

/-- The outcome of one full script run (src/app.py lines 38-149): the
decarbonization layer features, the restoration layer (when present), the
two scalar sidebar metrics, and the sidebar average (present only when the
zones dictionary is truthy, line 144). -/
structure RenderOutput where
  electricityFeatures : List StyledFeature
  restorMarkers : Option (List Marker)
  oceanMetric : Nat
  treesMetric : Nat
  avgMetric : Option ℚ
  deriving DecidableEq, Repr

/-- The external inputs of one script run: the optional credential and the
outcome of each outbound network call (an `Except` so that a raising call is
representable). -/
structure Inputs where
  token : Option String
  electricityFetch : Except Unit (Zones × Zones)
  geojsonFetch : Except Unit (List GeoFeature)
  restorFetch : Except Unit (List RestorSite)
  oceanFetch : Except Unit String
  ecosiaFetch : Except Unit String

/-- src/app.py lines 38-149 as one function: the four cached adapters run
inside try/except (never raise), but the geojson fetch at line 84 runs
unguarded inside `if zones:`, so its exception propagates and aborts the
whole script run — `render` then returns `.error` and nothing at all is
rendered, sidebar metrics included. -/
def render (i : Inputs) : Except Unit RenderOutput := do
  let zs := get_electricity_data i.token i.electricityFetch
  let restor_df := get_restor_sites i.restorFetch
  let ocean := get_ocean_cleanup i.oceanFetch
  let ecosia_trees := get_ecosia_trees i.ecosiaFetch
  let efs ←
    if zs.isEmpty then pure []
    else do
      let geo ← i.geojsonFetch
      pure (electricity_features zs geo)
  pure
    { electricityFeatures := efs
      restorMarkers := restor_layer restor_df
      oceanMetric := ocean
      treesMetric := ecosia_trees
      avgMetric := if zs.isEmpty then none else some (avg_low_carbon zs) }

/-- State of one TTL cache: the stored value with its fetch timestamp, or
nothing before the first call.  Timestamps are rationals (seconds). -/
structure CacheState (α : Type) where
  entry : Option (α × ℚ)

/-- Result of one cached `get()` call: the returned value, the cache state
after the call, and how many underlying adapter invocations the call made
(0 or 1). -/
structure CacheResult (α : Type) where
  value : α
  state : CacheState α
  fetches : Nat

/-- Modelled from the spec: the `st.cache_data(ttl=...)` decorator
(src/app.py lines 22, 41, 53, 66) is library code not under src; per §4.2 of
the specification, a call within `[fetched_at, fetched_at + ttl)` returns
the stored value without re-fetching, and a first call or a call after the
TTL elapsed invokes the wrapped adapter and stores `(value, now)` — the
returned value is stored whether the underlying fetch succeeded or fell
back. -/
def cacheGet {α : Type} (ttl : ℚ) (adapter : Unit → α) (now : ℚ)
    (st : CacheState α) : CacheResult α :=
  match st.entry with
  | some (v, t) =>
    if now < t + ttl then { value := v, state := st, fetches := 0 }
    else
      { value := adapter (), state := { entry := some (adapter (), now) }, fetches := 1 }
  | none =>
    { value := adapter (), state := { entry := some (adapter (), now) }, fetches := 1 }

/-- src/app.py line 22: `get_electricity_data` cached with ttl=300. -/
def cached_electricity (token : Option String) (fetch : Except Unit (Zones × Zones))
    (now : ℚ) (st : CacheState Zones) : CacheResult Zones :=
  cacheGet 300 (fun _ => get_electricity_data token fetch) now st

/-- src/app.py line 41: `get_restor_sites` cached with ttl=3600. -/
def cached_restor (fetch : Except Unit (List RestorSite)) (now : ℚ)
    (st : CacheState (List RestorSite)) : CacheResult (List RestorSite) :=
  cacheGet 3600 (fun _ => get_restor_sites fetch) now st

/-- src/app.py line 53: `get_ocean_cleanup` cached with ttl=1800. -/
def cached_ocean (fetch : Except Unit String) (now : ℚ)
    (st : CacheState Nat) : CacheResult Nat :=
  cacheGet 1800 (fun _ => get_ocean_cleanup fetch) now st

/-- src/app.py line 66: `get_ecosia_trees` cached with ttl=120. -/
def cached_ecosia (fetch : Except Unit String) (now : ℚ)
    (st : CacheState Nat) : CacheResult Nat :=
  cacheGet 120 (fun _ => get_ecosia_trees fetch) now st

/-- Grid cell of a marker: the integer parts of its two leading location
coordinates. -/
def cellOf (m : Marker) : ℤ × ℤ :=
  (⌊m.location.headD 0⌋, ⌊(m.location.drop 1).headD 0⌋)

/-- Modelled from the spec: `folium.plugins.MarkerCluster`
(src/app.py line 109) is library code not under src; per §4.5 of the
specification no particular algorithm is mandated and radius/grid-based
grouping is sufficient — the group of each grid cell is the multiset of the
input markers falling in that cell, markers kept unaltered. -/
def cluster (points : List Marker) : (ℤ × ℤ) → Multiset Marker :=
  fun c => ((points.filter (fun m => cellOf m = c) : List Marker) : Multiset Marker)

/-! ### Helper lemmas -/

theorem classify_eq_very_high_iff (p : ℚ) : classify p = .very_high ↔ 80 < p := by
  unfold classify
  split_ifs with h1 h2 h3 h4 <;> simp_all <;> intros <;>
    first | linarith | (constructor <;> linarith)

theorem classify_eq_high_iff (p : ℚ) : classify p = .high ↔ 60 < p ∧ p ≤ 80 := by
  unfold classify
  split_ifs with h1 h2 h3 h4 <;> simp_all <;> intros <;>
    first | linarith | (constructor <;> linarith)

theorem classify_eq_medium_iff (p : ℚ) : classify p = .medium ↔ 40 < p ∧ p ≤ 60 := by
  unfold classify
  split_ifs with h1 h2 h3 h4 <;> simp_all <;> intros <;>
    first | linarith | (constructor <;> linarith)

theorem classify_eq_low_iff (p : ℚ) : classify p = .low ↔ 20 < p ∧ p ≤ 40 := by
  unfold classify
  split_ifs with h1 h2 h3 h4 <;> simp_all <;> intros <;>
    first | linarith | (constructor <;> linarith)

theorem classify_eq_very_low_iff (p : ℚ) : classify p = .very_low ↔ p ≤ 20 := by
  unfold classify
  split_ifs with h1 h2 h3 h4 <;> simp_all <;> intros <;>
    first | linarith | (constructor <;> linarith)

theorem color_eq_bucketColor (p : ℚ) : color p = bucketColor (classify p) := by
  unfold color classify bucketColor
  split_ifs <;> rfl

/-! ### Claim theorems -/

/-- C1: the sidebar summary statistic on the metrics `{A: 80, B: absent,
C: 40}`.  The code of src/app.py line 145 sums only the reporting zones but
divides by the number of all zones, yielding 40; the mean over reporting
zones that the specification requires is 60. -/
theorem C1_sidebar_average_divergence :
    avg_low_carbon
        [("A", ⟨some 80, none, none⟩), ("B", ⟨none, none, none⟩), ("C", ⟨some 40, none, none⟩)]
      = 40
    ∧ specMeanLowCarbon
        [("A", ⟨some 80, none, none⟩), ("B", ⟨none, none, none⟩), ("C", ⟨some 40, none, none⟩)]
      = 60 := by
  constructor <;> · simp [avg_low_carbon, specMeanLowCarbon, List.filter]; norm_num

/-- C2: the classifier is total and deterministic (it is a function); for
every percentage exactly one bucket is chosen, characterized by the
strict-greater-than ladder with boundary values in the lower bucket; the
source color ladder agrees with it; and the four boundary samples evaluate
as the specification states. -/
theorem C2_classifier_total_boundary_exact :
    (∀ p : ℚ, color p = bucketColor (classify p))
    ∧ (∀ p : ℚ,
        (classify p = .very_high ↔ 80 < p)
        ∧ (classify p = .high ↔ 60 < p ∧ p ≤ 80)
        ∧ (classify p = .medium ↔ 40 < p ∧ p ≤ 60)
        ∧ (classify p = .low ↔ 20 < p ∧ p ≤ 40)
        ∧ (classify p = .very_low ↔ p ≤ 20))
    ∧ classify 80 = .high
    ∧ classify (80.0001 : ℚ) = .very_high
    ∧ classify 20 = .very_low
    ∧ classify (20.0001 : ℚ) = .low := by
  refine ⟨color_eq_bucketColor, fun p => ?_,
    by rw [classify_eq_high_iff] <;> norm_num,
    by rw [classify_eq_very_high_iff] <;> norm_num,
    by rw [classify_eq_very_low_iff] <;> norm_num,
    by rw [classify_eq_low_iff] <;> norm_num⟩
  exact ⟨classify_eq_very_high_iff p, classify_eq_high_iff p, classify_eq_medium_iff p,
    classify_eq_low_iff p, classify_eq_very_low_iff p⟩

/-- C5: failure of the unguarded zone-geometry fetch (src/app.py line 84) is
fatal: with a valid credential, a non-empty zones response, and every other
source succeeding, the script run aborts with the propagated exception and
none of the other layers or sidebar metrics is rendered. -/
theorem C5_geometry_feed_failure_aborts_render :
    render
        { token := some "t"
          electricityFetch := .ok ([("A", ⟨some 80, none, none⟩)], [])
          geojsonFetch := .error ()
          restorFetch := .ok [⟨some "site", [1, 2], none, none, none⟩]
          oceanFetch := .ok "page"
          ecosiaFetch := .ok "page" }
      = .error () := rfl

/-- C3: with the credential absent, the adapter returns the empty result
set, so the decarbonization layer has zero features and the sidebar average
is omitted, while the restoration layer and the two scalar metrics are built
from their own (live or fallback) adapter results exactly as usual. -/
theorem C3_credential_absent_disables_only_electricity (i : Inputs)
    (h : i.token = none) :
    render i =
      .ok
        { electricityFeatures := []
          restorMarkers := restor_layer (get_restor_sites i.restorFetch)
          oceanMetric := get_ocean_cleanup i.oceanFetch
          treesMetric := get_ecosia_trees i.ecosiaFetch
          avgMetric := none } := by
  have hz : get_electricity_data i.token i.electricityFetch = [] := by
    rw [h]; rfl
  simp [render, hz]
  rfl

/-- C3 witness: the credential-absent scenario at concrete inputs. -/
theorem C3_witness :
    render
        { token := none
          electricityFetch := .error ()
          geojsonFetch := .error ()
          restorFetch := .ok [⟨some "site", [1, 2], none, none, none⟩]
          oceanFetch := .error ()
          ecosiaFetch := .error () }
      = .ok
        { electricityFeatures := []
          restorMarkers := some [⟨[2, 1], some "site", none, none, none⟩]
          oceanMetric := 750000000
          treesMetric := 215000000
          avgMetric := none } := by
  exact C3_credential_absent_disables_only_electricity
    { token := none
      electricityFetch := .error ()
      geojsonFetch := .error ()
      restorFetch := .ok [⟨some "site", [1, 2], none, none, none⟩]
      oceanFetch := .error ()
      ecosiaFetch := .error () } rfl

/-- C4: the ocean-cleanup and tree-count adapters are total functions (they
never raise), and every execution in which the network call raises or the
textual pattern fails to match returns the documented fallback constant
(750000000 kg of plastic; 215000000 trees). -/
theorem C4_scrape_adapters_fall_back (oceanFetch ecosiaFetch : Except Unit String) :
    (∀ e : Unit, oceanFetch = .error e → get_ocean_cleanup oceanFetch = 750000000)
    ∧ (∀ html : String, oceanFetch = .ok html →
        reSearch (matchLitSpaceDigitsAt oceanLit) html.toList = none →
        get_ocean_cleanup oceanFetch = 750000000)
    ∧ (∀ e : Unit, ecosiaFetch = .error e → get_ecosia_trees ecosiaFetch = 215000000)
    ∧ (∀ html : String, ecosiaFetch = .ok html →
        reSearch (matchLitDigitsQuoteAt ecosiaLit1) html.toList = none →
        reSearch (matchLitDigitsQuoteAt ecosiaLit2) html.toList = none →
        get_ecosia_trees ecosiaFetch = 215000000) := by
  refine ⟨fun e he => ?_, fun html he hn => ?_, fun e he => ?_, fun html he hn1 hn2 => ?_⟩
  · subst he; rfl
  · subst he
    have hd : reSearch (matchLitSpaceDigitsAt oceanLit) html.data = none := hn
    simp [get_ocean_cleanup, hd]
  · subst he; rfl
  · subst he
    have hd1 : reSearch (matchLitDigitsQuoteAt ecosiaLit1) html.data = none := hn1
    have hd2 : reSearch (matchLitDigitsQuoteAt ecosiaLit2) html.data = none := hn2
    simp [get_ecosia_trees, hd1, hd2]

/-- C4 witness: a raising call and an unmatched page for each adapter. -/
theorem C4_witness :
    get_ocean_cleanup (.error ()) = 750000000
    ∧ get_ocean_cleanup (.ok "no counter here") = 750000000
    ∧ get_ecosia_trees (.error ()) = 215000000
    ∧ get_ecosia_trees (.ok "no counter here") = 215000000 := by
  refine ⟨(C4_scrape_adapters_fall_back (.error ()) (.error ())).1 () rfl,
    (C4_scrape_adapters_fall_back (.ok "no counter here") (.error ())).2.1
      "no counter here" rfl rfl,
    (C4_scrape_adapters_fall_back (.error ()) (.error ())).2.2.1 () rfl,
    (C4_scrape_adapters_fall_back (.error ()) (.ok "no counter here")).2.2.2
      "no counter here" rfl rfl rfl⟩

theorem electricity_features_nil (zs : Zones) : electricity_features zs [] = [] := rfl

theorem electricity_features_cons (zs : Zones) (g : GeoFeature) (rest : List GeoFeature) :
    electricity_features zs (g :: rest)
      = match matchedPct zs g with
        | none => electricity_features zs rest
        | some q => { feature := g, fillColor := color q } :: electricity_features zs rest := by
  unfold electricity_features
  rw [List.filterMap_cons]
  cases matchedPct zs g <;> simp

/-- C6: characterization of the geometry/metric join.  Among the styled
features of the decarbonization layer, those carrying a given input feature
`f` are: none at all when `f` has no matching usable percentage
(absent/empty identifier, identifier not in the zones dictionary, or no
usable percentage), and otherwise exactly one copy per occurrence of `f` in
the geometry feed — so a feature occurring once appears exactly once —
annotated with the color of the bucket classified from its selected
percentage. -/
theorem C6_join_left_exact (zs : Zones) (geo : List GeoFeature) (f : GeoFeature) :
    (matchedPct zs f = none →
      (electricity_features zs geo).filter (fun s => s.feature = f) = [])
    ∧ (∀ p : ℚ, matchedPct zs f = some p →
      (electricity_features zs geo).filter (fun s => s.feature = f)
        = List.replicate (geo.count f)
            { feature := f, fillColor := bucketColor (classify p) }) := by
  induction geo with
  | nil =>
    exact ⟨fun _ => rfl, fun p _ => by simp [electricity_features]⟩
  | cons g rest ih =>
    constructor
    · intro hnone
      rw [electricity_features_cons]
      cases hg : matchedPct zs g with
      | none => exact ih.1 hnone
      | some q =>
        by_cases hgf : g = f
        · subst hgf; rw [hg] at hnone; cases hnone
        · rw [List.filter_cons]
          simp only [hgf]
          simpa using ih.1 hnone
    · intro p hp
      rw [electricity_features_cons, List.count_cons]
      cases hg : matchedPct zs g with
      | none =>
        by_cases hgf : g = f
        · subst hgf; rw [hg] at hp; cases hp
        · simp [hgf, ih.2 p hp]
      | some q =>
        by_cases hgf : g = f
        · subst hgf
          rw [hg] at hp
          cases hp
          rw [List.filter_cons]
          simp [color_eq_bucketColor, List.replicate_succ, ih.2 p hg]
        · rw [List.filter_cons]
          simp [hgf, ih.2 p hp]

/-- C6 witness: a two-zone dictionary and three features — one matched (50,
medium), one with an unknown identifier, and the matched one occurring
once appears exactly once with the medium color. -/
theorem C6_witness :
    (electricity_features
          [("X", ⟨some 50, none, none⟩)]
          [⟨some "X", "bx"⟩, ⟨some "Y", "by"⟩]).filter
        (fun s => s.feature = (⟨some "Y", "by"⟩ : GeoFeature)) = []
    ∧ (electricity_features
          [("X", ⟨some 50, none, none⟩)]
          [⟨some "X", "bx"⟩, ⟨some "Y", "by"⟩]).filter
        (fun s => s.feature = (⟨some "X", "bx"⟩ : GeoFeature))
      = List.replicate 1 { feature := ⟨some "X", "bx"⟩, fillColor := bucketColor (classify 50) } := by
  constructor
  · exact (C6_join_left_exact [("X", ⟨some 50, none, none⟩)]
      [⟨some "X", "bx"⟩, ⟨some "Y", "by"⟩] ⟨some "Y", "by"⟩).1 rfl
  · exact (C6_join_left_exact [("X", ⟨some 50, none, none⟩)]
      [⟨some "X", "bx"⟩, ⟨some "Y", "by"⟩] ⟨some "X", "bx"⟩).2 50 rfl

theorem cacheGet_cold_pair {α : Type} (ttl : ℚ) (f : Unit → α) (t0 t1 : ℚ)
    (h1 : t1 < t0 + ttl) :
    (cacheGet ttl f t0 ⟨none⟩).value = f ()
    ∧ (cacheGet ttl f t0 ⟨none⟩).fetches = 1
    ∧ (cacheGet ttl f t1 (cacheGet ttl f t0 ⟨none⟩).state).value
        = (cacheGet ttl f t0 ⟨none⟩).value
    ∧ (cacheGet ttl f t1 (cacheGet ttl f t0 ⟨none⟩).state).fetches = 0 := by
  refine ⟨rfl, rfl, ?_, ?_⟩ <;> simp [cacheGet, h1]

/-- C7: for each of the four cached adapters, two `get()` calls inside the
TTL window of the source — 300s for carbon intensity, 3600s for restoration
sites, 1800s for ocean-cleanup, 120s for the tree count — return identical
values and invoke the underlying adapter exactly once in total: the first
call fetches, the second is served from the cache with zero fetches. -/
theorem C7_ttl_cache_idempotent :
    (∀ (token : Option String) (fetch : Except Unit (Zones × Zones)) (t0 t1 : ℚ),
      t0 ≤ t1 → t1 < t0 + 300 →
      (cached_electricity token fetch t1 (cached_electricity token fetch t0 ⟨none⟩).state).value
          = (cached_electricity token fetch t0 ⟨none⟩).value
        ∧ (cached_electricity token fetch t0 ⟨none⟩).fetches
            + (cached_electricity token fetch t1
                (cached_electricity token fetch t0 ⟨none⟩).state).fetches = 1)
    ∧ (∀ (fetch : Except Unit (List RestorSite)) (t0 t1 : ℚ),
      t0 ≤ t1 → t1 < t0 + 3600 →
      (cached_restor fetch t1 (cached_restor fetch t0 ⟨none⟩).state).value
          = (cached_restor fetch t0 ⟨none⟩).value
        ∧ (cached_restor fetch t0 ⟨none⟩).fetches
            + (cached_restor fetch t1 (cached_restor fetch t0 ⟨none⟩).state).fetches = 1)
    ∧ (∀ (fetch : Except Unit String) (t0 t1 : ℚ),
      t0 ≤ t1 → t1 < t0 + 1800 →
      (cached_ocean fetch t1 (cached_ocean fetch t0 ⟨none⟩).state).value
          = (cached_ocean fetch t0 ⟨none⟩).value
        ∧ (cached_ocean fetch t0 ⟨none⟩).fetches
            + (cached_ocean fetch t1 (cached_ocean fetch t0 ⟨none⟩).state).fetches = 1)
    ∧ (∀ (fetch : Except Unit String) (t0 t1 : ℚ),
      t0 ≤ t1 → t1 < t0 + 120 →
      (cached_ecosia fetch t1 (cached_ecosia fetch t0 ⟨none⟩).state).value
          = (cached_ecosia fetch t0 ⟨none⟩).value
        ∧ (cached_ecosia fetch t0 ⟨none⟩).fetches
            + (cached_ecosia fetch t1 (cached_ecosia fetch t0 ⟨none⟩).state).fetches = 1) := by
  refine ⟨fun token fetch t0 t1 _ h1 => ?_, fun fetch t0 t1 _ h1 => ?_,
    fun fetch t0 t1 _ h1 => ?_, fun fetch t0 t1 _ h1 => ?_⟩ <;>
  · simp only [cached_electricity, cached_restor, cached_ocean, cached_ecosia]
    obtain ⟨_, hf1, hv, hf2⟩ := cacheGet_cold_pair _ _ t0 t1 h1
    exact ⟨hv, by rw [hf1, hf2]⟩

/-- C7 witness: two ocean-cleanup calls at times 0 and 100 inside the 1800s
window. -/
theorem C7_witness :
    (cached_ocean (.error ()) 100 (cached_ocean (.error ()) 0 ⟨none⟩).state).value
        = (cached_ocean (.error ()) 0 ⟨none⟩).value
      ∧ (cached_ocean (.error ()) 0 ⟨none⟩).fetches
          + (cached_ocean (.error ()) 100 (cached_ocean (.error ()) 0 ⟨none⟩).state).fetches
        = 1 :=
  C7_ttl_cache_idempotent.2.2.1 (.error ()) 0 100 (by norm_num) (by norm_num)

/-- C8: a failed underlying fetch does not poison the cache — the
ocean-cleanup fallback value produced on failure is stored and served within
the TTL window like any fetched value: the first call stores and returns
750000000, and a later call inside the window returns the same fallback
with zero additional outbound fetches. -/
theorem C8_failure_cached_like_any_value :
    ∀ (e : Unit) (t0 t1 : ℚ), t0 ≤ t1 → t1 < t0 + 1800 →
      (cached_ocean (.error e) t0 ⟨none⟩).value = 750000000
      ∧ (cached_ocean (.error e) t1 (cached_ocean (.error e) t0 ⟨none⟩).state).value
          = 750000000
      ∧ (cached_ocean (.error e) t1 (cached_ocean (.error e) t0 ⟨none⟩).state).fetches
          = 0 := by
  intro e t0 t1 _ h1
  unfold cached_ocean
  obtain ⟨hv0, _, hv, hf2⟩ :=
    cacheGet_cold_pair 1800 (fun _ => get_ocean_cleanup (.error e)) t0 t1 h1
  have hfb : get_ocean_cleanup (.error e) = 750000000 := rfl
  exact ⟨by rw [hv0, hfb], by rw [hv, hv0, hfb], hf2⟩

/-- C8 witness: the failed-fetch scenario at times 0 and 100. -/
theorem C8_witness :
    (cached_ocean (.error ()) 0 ⟨none⟩).value = 750000000
    ∧ (cached_ocean (.error ()) 100 (cached_ocean (.error ()) 0 ⟨none⟩).state).value
        = 750000000
    ∧ (cached_ocean (.error ()) 100 (cached_ocean (.error ()) 0 ⟨none⟩).state).fetches
        = 0 :=
  C8_failure_cached_like_any_value () 0 100 (by norm_num) (by norm_num)

/-- C9: the spatial clustering is a pure function of the input point set —
clustering the markers of any permutation of the restoration-site list
yields the same grouping — and the point data are not altered: each grid
cell group contains exactly the input markers falling in that cell, with
their multiplicities, unchanged. -/
theorem C9_clustering_pure_of_point_set :
    (∀ df1 df2 : List RestorSite, df1.Perm df2 →
      cluster (df1.map markerOfSite) = cluster (df2.map markerOfSite))
    ∧ (∀ (points : List Marker) (c : ℤ × ℤ) (m : Marker),
      Multiset.count m (cluster points c)
        = if cellOf m = c then points.count m else 0) := by
  constructor
  · intro df1 df2 hperm
    funext c
    exact Multiset.coe_eq_coe.mpr ((hperm.map markerOfSite).filter _)
  · intro points c m
    simp only [cluster, Multiset.coe_count]
    by_cases h : cellOf m = c
    · rw [List.count_filter (by simp [h])]
      simp [h]
    · have hnm : m ∉ points.filter (fun x => decide (cellOf x = c)) := by
        intro hmem
        exact h (of_decide_eq_true (List.mem_filter.mp hmem).2)
      rw [List.count_eq_zero.mpr hnm]
      simp [h]

/-- C9 witness: swapping two concrete restoration sites leaves the
clustering unchanged, and the cell group of the first marker contains it
exactly once. -/
theorem C9_witness :
    cluster ([⟨some "a", [1, 2], none, none, none⟩,
              ⟨some "b", [50, 60], none, none, none⟩].map markerOfSite)
      = cluster ([⟨some "b", [50, 60], none, none, none⟩,
                  ⟨some "a", [1, 2], none, none, none⟩].map markerOfSite)
    ∧ Multiset.count (markerOfSite ⟨some "a", [1, 2], none, none, none⟩)
        (cluster ([⟨some "a", [1, 2], none, none, none⟩,
                   ⟨some "b", [50, 60], none, none, none⟩].map markerOfSite)
          (cellOf (markerOfSite ⟨some "a", [1, 2], none, none, none⟩)))
      = if cellOf (markerOfSite ⟨some "a", [1, 2], none, none, none⟩)
            = cellOf (markerOfSite ⟨some "a", [1, 2], none, none, none⟩)
        then List.count (markerOfSite ⟨some "a", [1, 2], none, none, none⟩)
               ([⟨some "a", [1, 2], none, none, none⟩,
                 ⟨some "b", [50, 60], none, none, none⟩].map markerOfSite)
        else 0 := by
  constructor
  · exact C9_clustering_pure_of_point_set.1
      [⟨some "a", [1, 2], none, none, none⟩, ⟨some "b", [50, 60], none, none, none⟩]
      [⟨some "b", [50, 60], none, none, none⟩, ⟨some "a", [1, 2], none, none, none⟩]
      (List.Perm.swap _ _ _)
  · exact C9_clustering_pure_of_point_set.2
      ([⟨some "a", [1, 2], none, none, none⟩,
        ⟨some "b", [50, 60], none, none, none⟩].map markerOfSite)
      (cellOf (markerOfSite ⟨some "a", [1, 2], none, none, none⟩))
      (markerOfSite ⟨some "a", [1, 2], none, none, none⟩)

/-- C10 counterexample: a zone reporting `lowCarbonPercentage = 0` and
`renewablePercentage = 0` is NOT excluded from the decarbonization layer —
the or-fallback makes `pct = 0`, which is not `None`, so the feature is
rendered and classified very_low (orange) — contradicting the claim that it
is excluded when `renewablePercentage` is absent or 0. -/
theorem C10_counterexample_zero_renewable_included :
    electricity_features [("X", ⟨some 0, some 0, none⟩)] [⟨some "X", "body"⟩]
      = [{ feature := ⟨some "X", "body"⟩, fillColor := bucketColor .very_low }]
    ∧ electricity_features [("X", ⟨some 0, some 0, none⟩)] [⟨some "X", "body"⟩] ≠ [] := by
  constructor
  · rfl
  · have h1 : electricity_features [("X", ⟨some 0, some 0, none⟩)] [⟨some "X", "body"⟩]
        = [{ feature := ⟨some "X", "body"⟩, fillColor := bucketColor .very_low }] := rfl
    rw [h1]
    simp

/-- C10 (amended): for a zone whose `lowCarbonPercentage` is exactly 0 the
styling step substitutes `renewablePercentage`; if `renewablePercentage` is
absent the zone is excluded, while if it is present — including present and
equal to 0 — the zone is rendered and classified from the substituted value
(so a 0 renewable percentage yields very_low, not exclusion). -/
theorem C10_zero_low_carbon_fallback (z : ZoneData) (zid : String) (f : GeoFeature)
    (hz : z.lowCarbonPercentage = some 0) (hf : f.zoneName = some zid) (hid : ¬zid = "") :
    (z.renewablePercentage = none → electricity_features [(zid, z)] [f] = [])
    ∧ (∀ r : ℚ, z.renewablePercentage = some r →
        electricity_features [(zid, z)] [f]
          = [{ feature := f, fillColor := bucketColor (classify r) }]) := by
  have hm : matchedPct [(zid, z)] f = z.renewablePercentage := by
    simp [matchedPct, hf, hid, zonesLookup, pyOr, hz]
  constructor
  · intro hr
    simp [electricity_features, hm, hr]
  · intro r hr
    simp [electricity_features, hm, hr, color_eq_bucketColor]

/-- C10 witness: the amended behavior at a concrete zone — renewable absent
excludes the feature; renewable 0 renders it very_low. -/
theorem C10_witness :
    electricity_features [("X", ⟨some 0, none, none⟩)] [⟨some "X", "body"⟩] = []
    ∧ electricity_features [("Y", ⟨some 0, some 0, none⟩)] [⟨some "Y", "body"⟩]
        = [{ feature := ⟨some "Y", "body"⟩, fillColor := bucketColor (classify 0) }] := by
  constructor
  · exact (C10_zero_low_carbon_fallback ⟨some 0, none, none⟩ "X" ⟨some "X", "body"⟩
      rfl rfl (by simp)).1 rfl
  · exact (C10_zero_low_carbon_fallback ⟨some 0, some 0, none⟩ "Y" ⟨some "Y", "body"⟩
      rfl rfl (by simp)).2 0 rfl

end ProgressDirector
